import Mathlib

/-!
Shallow embedding of the request-building logic of the n8n GitLab-extended
node, centred on `handleMergeRequest`
(src/nodes/GitlabExtended/resources/mergeRequest.ts) and the top-level
resource dispatch of `GitlabExtended.execute`.

JavaScript objects built field-by-field are modelled as association lists
(`JObject`), which preserves both the key set and the insertion order.
Throwing `NodeOperationError` is modelled as `Except.error` carrying the
error message; a successfully built request (about to be handed to
`gitlabApiRequest` / `gitlabApiRequestAllItems`) is `Except.ok`.
Host-resolved node parameters become fields of an explicit parameter
record; JS sentinel defaults (`''` for absent strings, `null` for absent
numbers) become `""` and `Option Int`.
-/

namespace GitlabExtended

/-- A JSON-like value as it appears in request bodies and query strings. -/
inductive JValue where
  | str (s : String)
  | num (n : Int)
  | bool (b : Bool)
  | null
  | obj (fields : List (String × JValue))

/-- A JavaScript object under construction: keys in insertion order. -/
abbrev JObject := List (String × JValue)

/-- Whether the object has the given key. -/
def JObject.hasKey (o : JObject) (k : String) : Bool :=
  o.any (fun kv => kv.1 == k)

/-- Look up the value stored under a key (first occurrence). -/
def JObject.get (o : JObject) (k : String) : Option JValue :=
  (o.find? (fun kv => kv.1 == k)).map Prod.snd

/-- The keys of the object, in insertion order. -/
def JObject.keys (o : JObject) : List String :=
  o.map Prod.fst

/-- The request components accumulated by a builder branch before the
HTTP call: method, endpoint, JSON body, query string, and whether the
auto-paginating executor is used. -/
structure RequestDescriptor where
  method : String
  endpoint : String
  body : JObject
  qs : JObject
  returnAll : Bool

/-- The node parameters read by `handleMergeRequest`, as resolved by the
host (`this.getNodeParameter`).  String parameters default to `""`,
numeric line parameters default to `null` (`Option.none`), booleans to
`false`, exactly as the defaults passed at each call site. -/
structure MRParams where
  operation : String
  mergeRequestIid : Int
  body : String
  startDiscussion : Bool
  commitId : String
  createdAt : String
  positionType : String
  newPath : String
  oldPath : String
  newLine : Option Int
  baseSha : String
  headSha : String
  startSha : String
  oldLine : Option Int
  lineRangeStartLineCode : String
  lineRangeStartType : String
  lineRangeStartOldLine : Option Int
  lineRangeStartNewLine : Option Int
  lineRangeEndLineCode : String
  lineRangeEndType : String
  lineRangeEndOldLine : Option Int
  lineRangeEndNewLine : Option Int
  discussionId : String
  noteId : Int
  resolved : String
  accessRawDiffs : Bool
  unidiff : Bool
  returnAll : Bool
  limit : Int
  srcBranch : String
  targetBranch : String
  title : String
  description : String
  mergeCommitMessage : String
  mergeStrategy : String
  skipCi : Bool
  labelAction : String
  labels : String

/-- Modelled from the spec: `requirePositive` (src/nodes/GitlabExtended/
validators.ts is not under src/) fails unless the value is a positive
number; the message matches the repository's test expectation
"mergeRequestIid must be a positive number". -/
def requirePositive (value : Int) (name : String) : Except String Unit :=
  if value ≤ 0 then Except.error (name ++ " must be a positive number")
  else Except.ok ()

/-- Modelled from the spec: `addOptionalStringParam` (src/nodes/
GitlabExtended/GenericFunctions.ts is not under src/) copies the resolved
string field into the body under the given key only when it is
non-empty. -/
def addOptionalStringParam (body : JObject) (value : String) (key : String) : JObject :=
  if value != "" then body ++ [(key, JValue.str value)] else body

/-- The all-or-nothing gate of mergeRequest.ts line 106: a `position`
object is built only when all five location fields are non-empty. -/
def hasPositionGate (p : MRParams) : Bool :=
  p.newPath != "" && p.oldPath != "" && p.baseSha != "" && p.headSha != "" && p.startSha != ""

/-- The gate of mergeRequest.ts line 130: a `line_range` is built only
when both endpoints' `line_code` and `type` are non-empty. -/
def lineRangeGate (p : MRParams) : Bool :=
  p.lineRangeStartLineCode != "" && p.lineRangeStartType != "" &&
    p.lineRangeEndLineCode != "" && p.lineRangeEndType != ""

/-- The `start` side of the `line_range` object (lines 137-151). -/
def lineRangeStartObj (p : MRParams) : JObject :=
  [("line_code", JValue.str p.lineRangeStartLineCode),
   ("type", JValue.str p.lineRangeStartType)]
    ++ (match p.lineRangeStartOldLine with
        | some v => [("old_line", JValue.num v)]
        | none => [])
    ++ (match p.lineRangeStartNewLine with
        | some v => [("new_line", JValue.num v)]
        | none => [])

/-- The `end` side of the `line_range` object (lines 141-157). -/
def lineRangeEndObj (p : MRParams) : JObject :=
  [("line_code", JValue.str p.lineRangeEndLineCode),
   ("type", JValue.str p.lineRangeEndType)]
    ++ (match p.lineRangeEndOldLine with
        | some v => [("old_line", JValue.num v)]
        | none => [])
    ++ (match p.lineRangeEndNewLine with
        | some v => [("new_line", JValue.num v)]
        | none => [])

/-- The fully assembled `position` object (mergeRequest.ts lines
116-159), in insertion order: `position_type` (defaulted to `"text"` by
the `||` fallback), the five location fields, then `new_line` when
present, `old_line` when present and nonzero, and `line_range` when its
gate passes. -/
def positionObj (p : MRParams) : JObject :=
  [("position_type",
      JValue.str (if p.positionType == "" then "text" else p.positionType)),
   ("new_path", JValue.str p.newPath),
   ("old_path", JValue.str p.oldPath),
   ("base_sha", JValue.str p.baseSha),
   ("head_sha", JValue.str p.headSha),
   ("start_sha", JValue.str p.startSha)]
  ++ (match p.newLine with
      | some v => [("new_line", JValue.num v)]
      | none => [])
  ++ (match p.oldLine with
      | some v => if v == 0 then [] else [("old_line", JValue.num v)]
      | none => [])
  ++ (if lineRangeGate p then
        [("line_range",
           JValue.obj [("start", JValue.obj (lineRangeStartObj p)),
                       ("end", JValue.obj (lineRangeEndObj p))])]
      else [])

/-- Position construction, mergeRequest.ts lines 106-161: `none` when the
five-field gate fails; an error when `oldLine` is present and negative;
otherwise the `position` object. -/
def buildPositionObj (p : MRParams) : Except String (Option JObject) :=
  if hasPositionGate p then
    if (match p.oldLine with | some v => decide (v < 0) | none => false) then
      Except.error "The \"oldLine\" parameter must be a non-negative number."
    else
      Except.ok (some (positionObj p))
  else Except.ok none

/-- The part of the `postDiscussionNote` body that precedes any
`position` key (mergeRequest.ts lines 63-67): the note text, then
`commit_id` and `created_at` when non-empty. -/
def pdnPreBody (p : MRParams) : JObject :=
  [("body", JValue.str p.body)]
    ++ (if p.commitId != "" then [("commit_id", JValue.str p.commitId)] else [])
    ++ (if p.createdAt != "" then [("created_at", JValue.str p.createdAt)] else [])

/-- The full `postDiscussionNote` body: the preamble plus the `position`
key when one was built. -/
def pdnBody (p : MRParams) (posOpt : Option JObject) : JObject :=
  pdnPreBody p ++ (match posOpt with
    | some pos => [("position", JValue.obj pos)]
    | none => [])

/-- The `postDiscussionNote` branch (mergeRequest.ts lines 57-174). -/
def postDiscussionNoteBranch (base : String) (p : MRParams) : Except String RequestDescriptor :=
  match requirePositive p.mergeRequestIid "mergeRequestIid" with
  | Except.error e => Except.error e
  | Except.ok _ =>
    match buildPositionObj p with
    | Except.error e => Except.error e
    | Except.ok posOpt =>
      if p.startDiscussion then
        Except.ok ⟨"POST",
          base ++ "/merge_requests/" ++ toString p.mergeRequestIid ++ "/discussions",
          pdnBody p posOpt, [], false⟩
      else if p.discussionId == "" then
        Except.error "Discussion ID must be provided when replying to a discussion."
      else
        Except.ok ⟨"POST",
          base ++ "/merge_requests/" ++ toString p.mergeRequestIid ++ "/discussions/"
            ++ p.discussionId ++ "/notes",
          pdnBody p posOpt, [], false⟩

/-- The `updateDiscussionNote` body once the mutual-exclusion gate has
passed (mergeRequest.ts lines 193-201): the note text, or the tri-state
`resolved` flag (`null` for a selector value other than
`"true"`/`"false"`), or nothing. -/
def udnBody (p : MRParams) : JObject :=
  if p.body != "" then [("body", JValue.str p.body)]
  else if p.resolved != "none" then
    [("resolved",
       if p.resolved == "true" then JValue.bool true
       else if p.resolved == "false" then JValue.bool false
       else JValue.null)]
  else []

/-- The `updateDiscussionNote` branch (mergeRequest.ts lines 183-202). -/
def updateDiscussionNoteBranch (base : String) (p : MRParams) : Except String RequestDescriptor :=
  match requirePositive p.mergeRequestIid "mergeRequestIid" with
  | Except.error e => Except.error e
  | Except.ok _ =>
    match requirePositive p.noteId "noteId" with
    | Except.error e => Except.error e
    | Except.ok _ =>
      if p.body != "" && p.resolved != "none" then
        Except.error "body and resolved are mutually exclusive"
      else
        Except.ok ⟨"PUT",
          base ++ "/merge_requests/" ++ toString p.mergeRequestIid ++ "/discussions/"
            ++ p.discussionId ++ "/notes/" ++ toString p.noteId,
          udnBody p, [], false⟩

/-- The whole of `handleMergeRequest` (mergeRequest.ts lines 18-311), up
to the HTTP call itself: the chain of `operation` comparisons, each branch
producing the request components or throwing, and the final
unsupported-operation error. -/
def handleMergeRequest (base : String) (p : MRParams) : Except String RequestDescriptor :=
  if p.operation == "create" then
    let body0 : JObject :=
      [("source_branch", JValue.str p.srcBranch),
       ("target_branch", JValue.str p.targetBranch),
       ("title", JValue.str p.title)]
    let body1 := addOptionalStringParam body0 p.description "description"
    Except.ok ⟨"POST", base ++ "/merge_requests", body1, [], false⟩
  else if p.operation == "get" then
    match requirePositive p.mergeRequestIid "mergeRequestIid" with
    | Except.error e => Except.error e
    | Except.ok _ =>
      Except.ok ⟨"GET", base ++ "/merge_requests/" ++ toString p.mergeRequestIid, [], [], false⟩
  else if p.operation == "getAll" then
    let qs : JObject := if p.returnAll then [] else [("per_page", JValue.num p.limit)]
    Except.ok ⟨"GET", base ++ "/merge_requests", [], qs, p.returnAll⟩
  else if p.operation == "createNote" then
    match requirePositive p.mergeRequestIid "mergeRequestIid" with
    | Except.error e => Except.error e
    | Except.ok _ =>
      Except.ok ⟨"POST", base ++ "/merge_requests/" ++ toString p.mergeRequestIid ++ "/notes",
        [("body", JValue.str p.body)], [], false⟩
  else if p.operation == "postDiscussionNote" then
    postDiscussionNoteBranch base p
  else if p.operation == "updateNote" then
    match requirePositive p.noteId "noteId" with
    | Except.error e => Except.error e
    | Except.ok _ =>
      match requirePositive p.mergeRequestIid "mergeRequestIid" with
      | Except.error e => Except.error e
      | Except.ok _ =>
        Except.ok ⟨"PUT",
          base ++ "/merge_requests/" ++ toString p.mergeRequestIid ++ "/notes/"
            ++ toString p.noteId,
          [("body", JValue.str p.body)], [], false⟩
  else if p.operation == "updateDiscussionNote" then
    updateDiscussionNoteBranch base p
  else if p.operation == "getChanges" then
    match requirePositive p.mergeRequestIid "mergeRequestIid" with
    | Except.error e => Except.error e
    | Except.ok _ =>
      let qs0 : JObject := if p.accessRawDiffs then [("access_raw_diffs", JValue.bool true)] else []
      let qs1 := if p.unidiff then qs0 ++ [("unidiff", JValue.bool true)] else qs0
      Except.ok ⟨"GET", base ++ "/merge_requests/" ++ toString p.mergeRequestIid ++ "/changes",
        [], qs1, false⟩
  else if p.operation == "getDiscussions" then
    match requirePositive p.mergeRequestIid "mergeRequestIid" with
    | Except.error e => Except.error e
    | Except.ok _ =>
      let qs : JObject := if p.returnAll then [] else [("per_page", JValue.num p.limit)]
      Except.ok ⟨"GET", base ++ "/merge_requests/" ++ toString p.mergeRequestIid ++ "/discussions",
        [], qs, p.returnAll⟩
  else if p.operation == "getDiscussion" then
    match requirePositive p.mergeRequestIid "mergeRequestIid" with
    | Except.error e => Except.error e
    | Except.ok _ =>
      Except.ok ⟨"GET",
        base ++ "/merge_requests/" ++ toString p.mergeRequestIid ++ "/discussions/"
          ++ p.discussionId,
        [], [], false⟩
  else if p.operation == "updateDiscussion" then
    match requirePositive p.mergeRequestIid "mergeRequestIid" with
    | Except.error e => Except.error e
    | Except.ok _ =>
      let body : JObject :=
        if p.resolved != "none" then [("resolved", JValue.bool (p.resolved == "true"))] else []
      Except.ok ⟨"PUT",
        base ++ "/merge_requests/" ++ toString p.mergeRequestIid ++ "/discussions/"
          ++ p.discussionId,
        body, [], false⟩
  else if p.operation == "deleteDiscussion" then
    match requirePositive p.mergeRequestIid "mergeRequestIid" with
    | Except.error e => Except.error e
    | Except.ok _ =>
      Except.ok ⟨"DELETE",
        base ++ "/merge_requests/" ++ toString p.mergeRequestIid ++ "/discussions/"
          ++ p.discussionId,
        [], [], false⟩
  else if p.operation == "getNote" then
    match requirePositive p.mergeRequestIid "mergeRequestIid" with
    | Except.error e => Except.error e
    | Except.ok _ =>
      match requirePositive p.noteId "noteId" with
      | Except.error e => Except.error e
      | Except.ok _ =>
        Except.ok ⟨"GET",
          base ++ "/merge_requests/" ++ toString p.mergeRequestIid ++ "/notes/"
            ++ toString p.noteId,
          [], [], false⟩
  else if p.operation == "deleteNote" then
    match requirePositive p.mergeRequestIid "mergeRequestIid" with
    | Except.error e => Except.error e
    | Except.ok _ =>
      match requirePositive p.noteId "noteId" with
      | Except.error e => Except.error e
      | Except.ok _ =>
        Except.ok ⟨"DELETE",
          base ++ "/merge_requests/" ++ toString p.mergeRequestIid ++ "/notes/"
            ++ toString p.noteId,
          [], [], false⟩
  else if p.operation == "deleteDiscussionNote" then
    match requirePositive p.mergeRequestIid "mergeRequestIid" with
    | Except.error e => Except.error e
    | Except.ok _ =>
      match requirePositive p.noteId "noteId" with
      | Except.error e => Except.error e
      | Except.ok _ =>
        Except.ok ⟨"DELETE",
          base ++ "/merge_requests/" ++ toString p.mergeRequestIid ++ "/discussions/"
            ++ p.discussionId ++ "/notes/" ++ toString p.noteId,
          [], [], false⟩
  else if p.operation == "resolveDiscussion" then
    match requirePositive p.mergeRequestIid "mergeRequestIid" with
    | Except.error e => Except.error e
    | Except.ok _ =>
      let body : JObject :=
        if p.resolved != "none" then [("resolved", JValue.bool (p.resolved == "true"))] else []
      Except.ok ⟨"PUT",
        base ++ "/merge_requests/" ++ toString p.mergeRequestIid ++ "/discussions/"
          ++ p.discussionId,
        body, [], false⟩
  else if p.operation == "merge" then
    match requirePositive p.mergeRequestIid "mergeRequestIid" with
    | Except.error e => Except.error e
    | Except.ok _ =>
      Except.ok ⟨"PUT", base ++ "/merge_requests/" ++ toString p.mergeRequestIid ++ "/merge",
        (if p.mergeCommitMessage != "" then
           [("merge_commit_message", JValue.str p.mergeCommitMessage)]
         else [])
          ++ (if p.mergeStrategy == "squash" then [("squash", JValue.bool true)] else []),
        [], false⟩
  else if p.operation == "rebase" then
    match requirePositive p.mergeRequestIid "mergeRequestIid" with
    | Except.error e => Except.error e
    | Except.ok _ =>
      let qs : JObject := if p.skipCi then [("skip_ci", JValue.bool true)] else []
      Except.ok ⟨"PUT", base ++ "/merge_requests/" ++ toString p.mergeRequestIid ++ "/rebase",
        [], qs, false⟩
  else if p.operation == "close" || p.operation == "reopen" then
    match requirePositive p.mergeRequestIid "mergeRequestIid" with
    | Except.error e => Except.error e
    | Except.ok _ =>
      Except.ok ⟨"PUT", base ++ "/merge_requests/" ++ toString p.mergeRequestIid,
        [("state_event", JValue.str (if p.operation == "close" then "close" else "reopen"))],
        [], false⟩
  else if p.operation == "labels" then
    match requirePositive p.mergeRequestIid "mergeRequestIid" with
    | Except.error e => Except.error e
    | Except.ok _ =>
      Except.ok ⟨"PUT", base ++ "/merge_requests/" ++ toString p.mergeRequestIid,
        (if p.labelAction == "add" then [("add_labels", JValue.str p.labels)]
         else [("remove_labels", JValue.str p.labels)]),
        [], false⟩
  else
    Except.error ("The operation \"" ++ p.operation ++ "\" is not supported.")

/-- Parameters read by the per-item body of `GitlabExtended.execute`
(GitlabExtended.node.ts).  The `operation` parameter is a single node
setting: both the top-level dispatch and `handleMergeRequest` resolve the
same value, so it lives once in `mr.operation`.  `assetsJson` is the
verdict of the host JSON parser on the `assets` text (the `try
JSON.parse` in the release branches). -/
structure ExecParams where
  resource : String
  mr : MRParams
  tagName : String
  ref : String
  message : String
  name : String
  releaseDescription : String
  assets : String
  assetsJson : Option JValue
  groupName : String
  groupPath : String
  parentId : Int
  groupId : Int
  projectName : String
  projectPath : String
  namespaceId : Int
  projectId : Int
  searchTerm : String
  title : String
  description : String
  issueLabels : String
  issueIid : Int
  issueStateProvided : Bool
  issueState : String
  httpMethod : String
  endpoint : String
  content : JObject
  queryParameters : JObject
  returnAll : Bool
  limit : Int

/-- What one iteration of `execute` does with an item once the build
phase ends: hand a request to the executor, or delegate the whole item to
a per-resource handler that lives in its own module (branch, pipeline,
file). -/
inductive ItemOutcome where
  | request (d : RequestDescriptor)
  | delegated (handler : String)

/-- One iteration of the `execute` loop (GitlabExtended.node.ts lines
1234-1441): the `resource` dispatch with its inline tag / release /
group / project / issue / raw branches, delegation to the branch,
pipeline, file and mergeRequest handlers, and the unknown-resource
error.  `enc` stands for the host's `encodeURIComponent`.  A branch that
matches no operation leaves the initial `GET` method and empty endpoint
in place and still issues the request. -/
def executeItem (enc : String → String) (base : String) (ep : ExecParams) :
    Except String ItemOutcome :=
  let operation := ep.mr.operation
  if ep.resource == "branch" then Except.ok (ItemOutcome.delegated "branch")
  else if ep.resource == "pipeline" then Except.ok (ItemOutcome.delegated "pipeline")
  else if ep.resource == "tag" then
    if operation == "create" then
      let body0 : JObject := [("tag_name", JValue.str ep.tagName), ("ref", JValue.str ep.ref)]
      let body1 := if ep.message != "" then body0 ++ [("message", JValue.str ep.message)] else body0
      Except.ok (ItemOutcome.request ⟨"POST", base ++ "/repository/tags", body1, [], false⟩)
    else if operation == "get" then
      Except.ok (ItemOutcome.request
        ⟨"GET", base ++ "/repository/tags/" ++ enc ep.tagName, [], [], false⟩)
    else if operation == "getAll" then
      let qs : JObject := if ep.returnAll then [] else [("per_page", JValue.num ep.limit)]
      Except.ok (ItemOutcome.request ⟨"GET", base ++ "/repository/tags", [], qs, ep.returnAll⟩)
    else if operation == "delete" then
      Except.ok (ItemOutcome.request
        ⟨"DELETE", base ++ "/repository/tags/" ++ enc ep.tagName, [], [], false⟩)
    else Except.ok (ItemOutcome.request ⟨"GET", "", [], [], false⟩)
  else if ep.resource == "release" then
    if operation == "create" then
      if ep.tagName == "" then Except.error "tagName must not be empty"
      else
        let body0 : JObject := [("tag_name", JValue.str ep.tagName), ("name", JValue.str ep.name)]
        let body1 := addOptionalStringParam body0 ep.releaseDescription "description"
        if ep.assets != "" then
          match ep.assetsJson with
          | some j =>
            Except.ok (ItemOutcome.request
              ⟨"POST", base ++ "/releases", body1 ++ [("assets", j)], [], false⟩)
          | none => Except.error "Invalid JSON in 'assets' parameter"
        else Except.ok (ItemOutcome.request ⟨"POST", base ++ "/releases", body1, [], false⟩)
    else if operation == "update" then
      let body0 : JObject := [("name", JValue.str ep.name)]
      let body1 := addOptionalStringParam body0 ep.releaseDescription "description"
      if ep.assets != "" then
        match ep.assetsJson with
        | some j =>
          Except.ok (ItemOutcome.request
            ⟨"PUT", base ++ "/releases/" ++ enc ep.tagName, body1 ++ [("assets", j)], [], false⟩)
        | none => Except.error "Invalid JSON in 'assets' parameter"
      else
        Except.ok (ItemOutcome.request
          ⟨"PUT", base ++ "/releases/" ++ enc ep.tagName, body1, [], false⟩)
    else if operation == "get" then
      Except.ok (ItemOutcome.request
        ⟨"GET", base ++ "/releases/" ++ enc ep.tagName, [], [], false⟩)
    else if operation == "getAll" then
      let qs : JObject := if ep.returnAll then [] else [("per_page", JValue.num ep.limit)]
      Except.ok (ItemOutcome.request ⟨"GET", base ++ "/releases", [], qs, ep.returnAll⟩)
    else if operation == "delete" then
      Except.ok (ItemOutcome.request
        ⟨"DELETE", base ++ "/releases/" ++ enc ep.tagName, [], [], false⟩)
    else Except.ok (ItemOutcome.request ⟨"GET", "", [], [], false⟩)
  else if ep.resource == "group" then
    if operation == "create" then
      let body0 : JObject := [("name", JValue.str ep.groupName), ("path", JValue.str ep.groupPath)]
      let body1 := if ep.parentId != 0 then body0 ++ [("parent_id", JValue.num ep.parentId)] else body0
      Except.ok (ItemOutcome.request ⟨"POST", "/groups", body1, [], false⟩)
    else if operation == "get" then
      match requirePositive ep.groupId "groupId" with
      | Except.error e => Except.error e
      | Except.ok _ =>
        Except.ok (ItemOutcome.request ⟨"GET", "/groups/" ++ toString ep.groupId, [], [], false⟩)
    else if operation == "delete" then
      match requirePositive ep.groupId "groupId" with
      | Except.error e => Except.error e
      | Except.ok _ =>
        Except.ok (ItemOutcome.request ⟨"DELETE", "/groups/" ++ toString ep.groupId, [], [], false⟩)
    else if operation == "getMembers" then
      match requirePositive ep.groupId "groupId" with
      | Except.error e => Except.error e
      | Except.ok _ =>
        let qs : JObject := if ep.returnAll then [] else [("per_page", JValue.num ep.limit)]
        Except.ok (ItemOutcome.request
          ⟨"GET", "/groups/" ++ toString ep.groupId ++ "/members", [], qs, ep.returnAll⟩)
    else Except.ok (ItemOutcome.request ⟨"GET", "", [], [], false⟩)
  else if ep.resource == "project" then
    if operation == "create" then
      let body0 : JObject :=
        [("name", JValue.str ep.projectName), ("path", JValue.str ep.projectPath)]
      let body1 :=
        if ep.namespaceId != 0 then body0 ++ [("namespace_id", JValue.num ep.namespaceId)]
        else body0
      Except.ok (ItemOutcome.request ⟨"POST", "/projects", body1, [], false⟩)
    else if operation == "get" then
      match requirePositive ep.projectId "projectId" with
      | Except.error e => Except.error e
      | Except.ok _ =>
        Except.ok (ItemOutcome.request ⟨"GET", "/projects/" ++ toString ep.projectId, [], [], false⟩)
    else if operation == "getAll" || operation == "search" then
      let qs0 : JObject := if ep.returnAll then [] else [("per_page", JValue.num ep.limit)]
      let qs1 := if operation == "search" then qs0 ++ [("search", JValue.str ep.searchTerm)] else qs0
      Except.ok (ItemOutcome.request ⟨"GET", "/projects", [], qs1, ep.returnAll⟩)
    else Except.ok (ItemOutcome.request ⟨"GET", "", [], [], false⟩)
  else if ep.resource == "file" then Except.ok (ItemOutcome.delegated "file")
  else if ep.resource == "issue" then
    if operation == "create" then
      let body0 : JObject := [("title", JValue.str ep.title)]
      let body1 := addOptionalStringParam body0 ep.description "description"
      let body2 := if ep.issueLabels != "" then body1 ++ [("labels", JValue.str ep.issueLabels)] else body1
      Except.ok (ItemOutcome.request ⟨"POST", base ++ "/issues", body2, [], false⟩)
    else if operation == "get" then
      match requirePositive ep.issueIid "issueIid" with
      | Except.error e => Except.error e
      | Except.ok _ =>
        Except.ok (ItemOutcome.request
          ⟨"GET", base ++ "/issues/" ++ toString ep.issueIid, [], [], false⟩)
    else if operation == "getAll" then
      let qs : JObject := if ep.returnAll then [] else [("per_page", JValue.num ep.limit)]
      Except.ok (ItemOutcome.request ⟨"GET", base ++ "/issues", [], qs, ep.returnAll⟩)
    else if operation == "update" then
      match requirePositive ep.issueIid "issueIid" with
      | Except.error e => Except.error e
      | Except.ok _ =>
        let body0 : JObject := [("title", JValue.str ep.title)]
        let body1 := addOptionalStringParam body0 ep.description "description"
        let body2 := if ep.issueLabels != "" then body1 ++ [("labels", JValue.str ep.issueLabels)] else body1
        let body3 :=
          if ep.issueStateProvided then body2 ++ [("state_event", JValue.str ep.issueState)]
          else body2
        Except.ok (ItemOutcome.request
          ⟨"PUT", base ++ "/issues/" ++ toString ep.issueIid, body3, [], false⟩)
    else if operation == "close" || operation == "reopen" then
      match requirePositive ep.issueIid "issueIid" with
      | Except.error e => Except.error e
      | Except.ok _ =>
        Except.ok (ItemOutcome.request
          ⟨"PUT", base ++ "/issues/" ++ toString ep.issueIid,
           [("state_event", JValue.str (if operation == "close" then "close" else "reopen"))],
           [], false⟩)
    else Except.ok (ItemOutcome.request ⟨"GET", "", [], [], false⟩)
  else if ep.resource == "mergeRequest" then
    (handleMergeRequest base ep.mr).map ItemOutcome.request
  else if ep.resource == "raw" then
    if operation == "request" then
      Except.ok (ItemOutcome.request
        ⟨ep.httpMethod, ep.endpoint, ep.content, ep.queryParameters, false⟩)
    else Except.ok (ItemOutcome.request ⟨"GET", "", [], [], false⟩)
  else Except.error ("Unknown resource: " ++ ep.resource)

/-- All node parameters at their call-site defaults: empty strings,
`null` line numbers, `false` booleans, `"none"` for the resolved
selector. -/
def mrDefault : MRParams where
  operation := ""
  mergeRequestIid := 0
  body := ""
  startDiscussion := false
  commitId := ""
  createdAt := ""
  positionType := ""
  newPath := ""
  oldPath := ""
  newLine := none
  baseSha := ""
  headSha := ""
  startSha := ""
  oldLine := none
  lineRangeStartLineCode := ""
  lineRangeStartType := ""
  lineRangeStartOldLine := none
  lineRangeStartNewLine := none
  lineRangeEndLineCode := ""
  lineRangeEndType := ""
  lineRangeEndOldLine := none
  lineRangeEndNewLine := none
  discussionId := ""
  noteId := 0
  resolved := "none"
  accessRawDiffs := false
  unidiff := false
  returnAll := false
  limit := 0
  srcBranch := ""
  targetBranch := ""
  title := ""
  description := ""
  mergeCommitMessage := ""
  mergeStrategy := "merge"
  skipCi := false
  labelAction := ""
  labels := ""

/-- Default execute-level parameters, around defaulted merge-request
parameters. -/
def execDefault : ExecParams where
  resource := ""
  mr := mrDefault
  tagName := ""
  ref := ""
  message := ""
  name := ""
  releaseDescription := ""
  assets := ""
  assetsJson := none
  groupName := ""
  groupPath := ""
  parentId := 0
  groupId := 0
  projectName := ""
  projectPath := ""
  namespaceId := 0
  projectId := 0
  searchTerm := ""
  title := ""
  description := ""
  issueLabels := ""
  issueIid := 0
  issueStateProvided := false
  issueState := ""
  httpMethod := ""
  endpoint := ""
  content := []
  queryParameters := []
  returnAll := false
  limit := 0

/-- Concrete input: `postDiscussionNote` with no location fields. -/
def pdnNoLocParams : MRParams :=
  { mrDefault with
      operation := "postDiscussionNote"
      mergeRequestIid := 5
      body := "a note"
      startDiscussion := true }

/-- Concrete input: `postDiscussionNote` with all five location fields. -/
def pdnAllLocParams : MRParams :=
  { mrDefault with
      operation := "postDiscussionNote"
      mergeRequestIid := 1
      body := "n"
      startDiscussion := true
      newPath := "a.txt"
      oldPath := "b.txt"
      baseSha := "b1"
      headSha := "h1"
      startSha := "s1" }

/-- Concrete input: `postDiscussionNote` with a negative oldLine. -/
def pdnNegOldLineParams : MRParams :=
  { pdnAllLocParams with
      mergeRequestIid := 2
      oldLine := some (-1) }

/-- Concrete input: `postDiscussionNote` replying to a discussion with an
empty discussionId. -/
def pdnReplyNoIdParams : MRParams :=
  { mrDefault with
      operation := "postDiscussionNote"
      mergeRequestIid := 7
      body := "r"
      startDiscussion := false }

/-- Concrete input: `postDiscussionNote` with a full line range whose
start side has a negative old line. -/
def pdnLineRangeParams : MRParams :=
  { pdnAllLocParams with
      lineRangeStartLineCode := "lc1"
      lineRangeStartType := "new"
      lineRangeStartOldLine := some (-3)
      lineRangeEndLineCode := "lc2"
      lineRangeEndType := "old"
      lineRangeEndNewLine := some 0 }

/-- Concrete input: `updateDiscussionNote` with both a body and a
resolved selector. -/
def udnBothParams : MRParams :=
  { mrDefault with
      operation := "updateDiscussionNote"
      mergeRequestIid := 3
      noteId := 4
      body := "text"
      resolved := "true"
      discussionId := "d1" }

/-- Concrete input: `merge` with the squash strategy. -/
def mergeSquashParams : MRParams :=
  { mrDefault with
      operation := "merge"
      mergeRequestIid := 10
      mergeCommitMessage := "done"
      mergeStrategy := "squash" }

/-- Concrete input: `labels` adding two labels. -/
def labelsAddParams : MRParams :=
  { mrDefault with
      operation := "labels"
      mergeRequestIid := 12
      labelAction := "add"
      labels := "bug,urgent" }

/-- Concrete input: the `tag` resource with an operation its branch does
not recognise. -/
def tagBogusOpParams : ExecParams :=
  { execDefault with
      resource := "tag"
      mr := { mrDefault with operation := "describeTag" }
      tagName := "v1.0" }

/-- Concrete input: a resource tag the dispatch does not recognise. -/
def unknownResourceParams : ExecParams :=
  { execDefault with
      resource := "wiki"
      mr := { mrDefault with operation := "get" } }

/-- The operation tags recognised by `handleMergeRequest`'s if-chain. -/
def mrSupportedOps : List String :=
  ["create", "get", "getAll", "createNote", "postDiscussionNote", "updateNote",
   "updateDiscussionNote", "getChanges", "getDiscussions", "getDiscussion",
   "updateDiscussion", "deleteDiscussion", "getNote", "deleteNote",
   "deleteDiscussionNote", "resolveDiscussion", "merge", "rebase", "close",
   "reopen", "labels"]

/-- The resource tags recognised by the `execute` dispatch. -/
def knownResources : List String :=
  ["branch", "pipeline", "tag", "release", "group", "project", "file", "issue",
   "mergeRequest", "raw"]

/-- The operation tags recognised by each inline resource branch of
`execute`. -/
def inlineResourceOps (resource : String) : List String :=
  if resource == "tag" then ["create", "get", "getAll", "delete"]
  else if resource == "release" then ["create", "update", "get", "getAll", "delete"]
  else if resource == "group" then ["create", "get", "delete", "getMembers"]
  else if resource == "project" then ["create", "get", "getAll", "search"]
  else if resource == "issue" then ["create", "get", "getAll", "update", "close", "reopen"]
  else if resource == "raw" then ["request"]
  else []

lemma requirePositive_of_pos {v : Int} (h : 0 < v) (name : String) :
    requirePositive v name = Except.ok () := by
  unfold requirePositive
  rw [if_neg (by omega)]

lemma hasKey_append (o1 o2 : JObject) (k : String) :
    JObject.hasKey (o1 ++ o2) k = (o1.hasKey k || o2.hasKey k) := by
  simp [JObject.hasKey, List.any_append]

lemma get_append (o1 o2 : JObject) (k : String) :
    JObject.get (o1 ++ o2) k = ((o1.get k).or (o2.get k)) := by
  simp only [JObject.get, List.find?_append]
  cases List.find? (fun kv => kv.1 == k) o1 <;> simp

lemma pdnPreBody_hasKey_position (p : MRParams) :
    JObject.hasKey (pdnPreBody p) "position" = false := by
  unfold pdnPreBody
  split_ifs <;> simp [JObject.hasKey]

lemma pdnPreBody_get_position (p : MRParams) :
    JObject.get (pdnPreBody p) "position" = none := by
  unfold pdnPreBody
  split_ifs <;> simp [JObject.get]

lemma handleMergeRequest_dispatch_pdn (base : String) (p : MRParams)
    (h : p.operation = "postDiscussionNote") :
    handleMergeRequest base p = postDiscussionNoteBranch base p := by
  unfold handleMergeRequest
  simp [h]

lemma handleMergeRequest_dispatch_udn (base : String) (p : MRParams)
    (h : p.operation = "updateDiscussionNote") :
    handleMergeRequest base p = updateDiscussionNoteBranch base p := by
  unfold handleMergeRequest
  simp [h]

lemma buildPositionObj_of_gate_false {p : MRParams} (h : hasPositionGate p = false) :
    buildPositionObj p = Except.ok none := by
  simp [buildPositionObj, h]

lemma buildPositionObj_of_neg {p : MRParams} {v : Int} (hg : hasPositionGate p = true)
    (ho : p.oldLine = some v) (hv : v < 0) :
    buildPositionObj p =
      Except.error "The \"oldLine\" parameter must be a non-negative number." := by
  simp [buildPositionObj, hg, ho, hv]

lemma buildPositionObj_of_nonneg {p : MRParams} (hg : hasPositionGate p = true)
    (hnn : ∀ v, p.oldLine = some v → 0 ≤ v) :
    buildPositionObj p = Except.ok (some (positionObj p)) := by
  unfold buildPositionObj
  cases ho : p.oldLine with
  | none => simp [hg, ho]
  | some v =>
      have hv := hnn v ho
      have : ¬ v < 0 := by omega
      simp [hg, ho, this]

lemma buildPositionObj_ok_inv {p : MRParams} {posOpt : Option JObject}
    (h : buildPositionObj p = Except.ok posOpt) :
    (hasPositionGate p = true ∧ posOpt = some (positionObj p)) ∨
      (hasPositionGate p = false ∧ posOpt = none) := by
  unfold buildPositionObj at h
  split at h
  · split at h
    · cases h
    · next hg _ =>
        left
        exact ⟨hg, by cases h; rfl⟩
  · next hg =>
      right
      refine ⟨by simpa using hg, by cases h; rfl⟩

lemma pdn_ok_inv {base : String} {p : MRParams} {d : RequestDescriptor}
    (h : postDiscussionNoteBranch base p = Except.ok d) :
    ∃ posOpt, buildPositionObj p = Except.ok posOpt ∧
      d.method = "POST" ∧ d.qs = [] ∧ d.returnAll = false ∧
      d.body = pdnBody p posOpt ∧
      ((p.startDiscussion = true ∧
         d.endpoint =
           base ++ "/merge_requests/" ++ toString p.mergeRequestIid ++ "/discussions") ∨
       (p.startDiscussion = false ∧ p.discussionId ≠ "" ∧
         d.endpoint =
           base ++ "/merge_requests/" ++ toString p.mergeRequestIid ++ "/discussions/"
             ++ p.discussionId ++ "/notes")) := by
  unfold postDiscussionNoteBranch at h
  split at h
  · cases h
  · split at h
    · cases h
    · next posOpt hpos =>
        split at h
        · next hsd =>
            cases h
            exact ⟨posOpt, hpos, rfl, rfl, rfl, rfl, Or.inl ⟨by simpa using hsd, rfl⟩⟩
        · next hsd =>
            split at h
            · cases h
            · next hdisc =>
                cases h
                exact ⟨posOpt, hpos, rfl, rfl, rfl, rfl,
                  Or.inr ⟨by simpa using hsd, by simpa using hdisc, rfl⟩⟩

lemma pdn_ok_of (base : String) {p : MRParams} (hiid : 0 < p.mergeRequestIid)
    {posOpt : Option JObject} (hpos : buildPositionObj p = Except.ok posOpt)
    (hdisc : p.startDiscussion = true ∨ p.discussionId ≠ "") :
    ∃ d, postDiscussionNoteBranch base p = Except.ok d ∧ d.body = pdnBody p posOpt ∧
      d.method = "POST" ∧
      d.endpoint =
        (if p.startDiscussion then
           base ++ "/merge_requests/" ++ toString p.mergeRequestIid ++ "/discussions"
         else
           base ++ "/merge_requests/" ++ toString p.mergeRequestIid ++ "/discussions/"
             ++ p.discussionId ++ "/notes") := by
  unfold postDiscussionNoteBranch
  rw [requirePositive_of_pos hiid, hpos]
  dsimp only
  by_cases hsd : p.startDiscussion = true
  · rw [if_pos hsd]
    exact ⟨_, rfl, rfl, rfl, by rw [if_pos hsd]⟩
  · rw [if_neg hsd]
    have hdid : p.discussionId ≠ "" := by
      rcases hdisc with h | h
      · exact absurd h hsd
      · exact h
    rw [if_neg (by simpa using hdid)]
    exact ⟨_, rfl, rfl, rfl, by rw [if_neg hsd]⟩

lemma pdn_err_oldLine {p : MRParams} (base : String) (hiid : 0 < p.mergeRequestIid)
    {v : Int} (hg : hasPositionGate p = true) (ho : p.oldLine = some v) (hv : v < 0) :
    postDiscussionNoteBranch base p =
      Except.error "The \"oldLine\" parameter must be a non-negative number." := by
  unfold postDiscussionNoteBranch
  rw [requirePositive_of_pos hiid, buildPositionObj_of_neg hg ho hv]

lemma pdn_err_discussionId {p : MRParams} (base : String) (hiid : 0 < p.mergeRequestIid)
    {posOpt : Option JObject} (hpos : buildPositionObj p = Except.ok posOpt)
    (hsd : p.startDiscussion = false) (hdid : p.discussionId = "") :
    postDiscussionNoteBranch base p =
      Except.error "Discussion ID must be provided when replying to a discussion." := by
  unfold postDiscussionNoteBranch
  rw [requirePositive_of_pos hiid, hpos]
  dsimp only
  rw [if_neg (by simp [hsd]), if_pos (by simp [hdid])]

lemma buildPositionObj_ok_of_valid {p : MRParams}
    (hva : ¬(hasPositionGate p = true ∧ ∃ v, p.oldLine = some v ∧ v < 0)) :
    ∃ posOpt, buildPositionObj p = Except.ok posOpt := by
  by_cases hg : hasPositionGate p = true
  · refine ⟨some (positionObj p), buildPositionObj_of_nonneg hg ?_⟩
    intro v hv
    by_contra hlt
    exact hva ⟨hg, v, hv, by omega⟩
  · exact ⟨none, buildPositionObj_of_gate_false (by simpa using hg)⟩

lemma pdn_position_of_get {base : String} {p : MRParams} {d : RequestDescriptor}
    {pos : JObject} (h : postDiscussionNoteBranch base p = Except.ok d)
    (hget : JObject.get d.body "position" = some (JValue.obj pos)) :
    pos = positionObj p := by
  obtain ⟨posOpt, hpos, _, _, _, hbody, _⟩ := pdn_ok_inv h
  rcases buildPositionObj_ok_inv hpos with ⟨hg, hsome⟩ | ⟨hg, hnone⟩
  · subst hsome
    rw [hbody] at hget
    unfold pdnBody at hget
    rw [get_append, pdnPreBody_get_position p] at hget
    simp [JObject.get] at hget
    exact hget.symm
  · subst hnone
    rw [hbody] at hget
    unfold pdnBody at hget
    simp [pdnPreBody_get_position p] at hget

lemma positionObj_get_position_type (p : MRParams) :
    JObject.get (positionObj p) "position_type" =
      some (JValue.str (if p.positionType == "" then "text" else p.positionType)) := by
  unfold positionObj
  simp [get_append, JObject.get]

lemma positionObj_get_new_line (p : MRParams) :
    JObject.get (positionObj p) "new_line" =
      (match p.newLine with | some v => some (JValue.num v) | none => none) := by
  unfold positionObj
  cases p.newLine <;> cases p.oldLine <;> simp [get_append, JObject.get]

lemma positionObj_get_old_line (p : MRParams) :
    JObject.get (positionObj p) "old_line" =
      (match p.oldLine with
       | some v => if v == 0 then none else some (JValue.num v)
       | none => none) := by
  unfold positionObj
  cases p.newLine <;> cases p.oldLine <;>
    simp [get_append, JObject.get] <;> split_ifs <;> simp_all [JObject.get]

lemma positionObj_hasKey_old_line (p : MRParams) :
    JObject.hasKey (positionObj p) "old_line" =
      (match p.oldLine with
       | some v => !(v == 0)
       | none => false) := by
  unfold positionObj
  cases p.newLine <;> cases p.oldLine <;>
    simp [hasKey_append, JObject.hasKey] <;> split_ifs <;> simp_all [JObject.hasKey]

lemma positionObj_get_line_range (p : MRParams) :
    JObject.get (positionObj p) "line_range" =
      (if lineRangeGate p then
         some (JValue.obj [("start", JValue.obj (lineRangeStartObj p)),
                           ("end", JValue.obj (lineRangeEndObj p))])
       else none) := by
  unfold positionObj
  cases p.newLine <;> cases p.oldLine <;>
    simp [get_append, JObject.get] <;> split_ifs <;> simp [JObject.get]

lemma positionObj_hasKey_line_range (p : MRParams) :
    JObject.hasKey (positionObj p) "line_range" = lineRangeGate p := by
  unfold positionObj
  cases p.newLine <;> cases p.oldLine <;>
    simp [hasKey_append, JObject.hasKey] <;> split_ifs <;> simp_all [JObject.hasKey]

lemma positionObj_keys (p : MRParams) :
    JObject.keys (positionObj p) =
      ["position_type", "new_path", "old_path", "base_sha", "head_sha", "start_sha"]
        ++ (match p.newLine with | some _ => ["new_line"] | none => [])
        ++ (match p.oldLine with
            | some v => if v == 0 then [] else ["old_line"]
            | none => [])
        ++ (if lineRangeGate p then ["line_range"] else []) := by
  unfold positionObj
  cases p.newLine <;> cases p.oldLine <;>
    simp [JObject.keys] <;> split_ifs <;> simp [JObject.keys]

lemma handleMergeRequest_dispatch_merge (base : String) (p : MRParams)
    (h : p.operation = "merge") :
    handleMergeRequest base p =
      (match requirePositive p.mergeRequestIid "mergeRequestIid" with
       | Except.error e => Except.error e
       | Except.ok _ =>
         Except.ok ⟨"PUT", base ++ "/merge_requests/" ++ toString p.mergeRequestIid ++ "/merge",
           (if p.mergeCommitMessage != "" then
              [("merge_commit_message", JValue.str p.mergeCommitMessage)]
            else [])
             ++ (if p.mergeStrategy == "squash" then [("squash", JValue.bool true)] else []),
           [], false⟩) := by
  unfold handleMergeRequest
  simp [h]

lemma handleMergeRequest_dispatch_labels (base : String) (p : MRParams)
    (h : p.operation = "labels") :
    handleMergeRequest base p =
      (match requirePositive p.mergeRequestIid "mergeRequestIid" with
       | Except.error e => Except.error e
       | Except.ok _ =>
         Except.ok ⟨"PUT", base ++ "/merge_requests/" ++ toString p.mergeRequestIid,
           (if p.labelAction == "add" then [("add_labels", JValue.str p.labels)]
            else [("remove_labels", JValue.str p.labels)]),
           [], false⟩) := by
  unfold handleMergeRequest
  simp [h]

lemma handleMergeRequest_unsupported (base : String) (p : MRParams)
    (h : p.operation ∉ mrSupportedOps) :
    handleMergeRequest base p =
      Except.error ("The operation \"" ++ p.operation ++ "\" is not supported.") := by
  simp only [mrSupportedOps, List.mem_cons, List.not_mem_nil, or_false, not_or] at h
  obtain ⟨h1, h2, h3, h4, h5, h6, h7, h8, h9, h10, h11, h12, h13, h14, h15, h16,
    h17, h18, h19, h20, h21⟩ := h
  unfold handleMergeRequest
  simp [h1, h2, h3, h4, h5, h6, h7, h8, h9, h10, h11, h12, h13, h14, h15, h16,
    h17, h18, h19, h20, h21]

/-- C1: for the `postDiscussionNote` operation the request body carries a
`position` key iff all five location fields (newPath, oldPath, baseSha,
headSha, startSha) are non-empty; when any of the five is empty and the
build otherwise succeeds, the body has no `position` key at all. -/
theorem pdn_position_key_iff_location_fields (base : String) (p : MRParams)
    (hop : p.operation = "postDiscussionNote") :
    (∀ d, handleMergeRequest base p = Except.ok d →
      (JObject.hasKey d.body "position" = true ↔ hasPositionGate p = true)) ∧
    (hasPositionGate p = false → 0 < p.mergeRequestIid →
      (p.startDiscussion = true ∨ p.discussionId ≠ "") →
      Except.map (fun d => JObject.hasKey d.body "position") (handleMergeRequest base p) =
        Except.ok false) := by
  rw [handleMergeRequest_dispatch_pdn base p hop]
  constructor
  · intro d hd
    obtain ⟨posOpt, hpos, _, _, _, hbody, _⟩ := pdn_ok_inv hd
    rcases buildPositionObj_ok_inv hpos with ⟨hg, hsome⟩ | ⟨hg, hnone⟩
    · subst hsome
      rw [hbody]
      simp [pdnBody, hasKey_append, pdnPreBody_hasKey_position, JObject.hasKey, hg]
    · subst hnone
      rw [hbody]
      simp [pdnBody, hasKey_append, pdnPreBody_hasKey_position, hg]
  · intro hg hiid hdisc
    obtain ⟨d, hok, hbody, _, _⟩ :=
      pdn_ok_of base hiid (buildPositionObj_of_gate_false hg) hdisc
    rw [hok]
    simp [Except.map, hbody, pdnBody, hasKey_append, pdnPreBody_hasKey_position]

/-- Witness for C1 at a concrete input: all five location fields empty,
so the body of the built request has no `position` key. -/
theorem pdn_position_key_iff_location_fields_witness :
    Except.map (fun d => JObject.hasKey d.body "position")
      (handleMergeRequest "/projects/1" pdnNoLocParams) = Except.ok false :=
  (pdn_position_key_iff_location_fields "/projects/1" pdnNoLocParams rfl).2
    rfl (by decide) (Or.inl rfl)

/-- C10: whenever a `position` object is built for `postDiscussionNote`,
it carries a `position_type` key whose value is the positionType field
when non-empty and `"text"` otherwise. -/
theorem pdn_position_type_always_present (base : String) (p : MRParams)
    (hop : p.operation = "postDiscussionNote") :
    ∀ d pos, handleMergeRequest base p = Except.ok d →
      JObject.get d.body "position" = some (JValue.obj pos) →
      JObject.get pos "position_type" =
        some (JValue.str (if p.positionType = "" then "text" else p.positionType)) := by
  rw [handleMergeRequest_dispatch_pdn base p hop]
  intro d pos hd hget
  have hpp := pdn_position_of_get hd hget
  subst hpp
  rw [positionObj_get_position_type]
  by_cases h : p.positionType = "" <;> simp [h]

/-- Witness for C10: with an empty positionType field the built position
carries `position_type: "text"`. -/
theorem pdn_position_type_always_present_witness :
    JObject.get
      [("position_type", JValue.str "text"), ("new_path", JValue.str "a.txt"),
       ("old_path", JValue.str "b.txt"), ("base_sha", JValue.str "b1"),
       ("head_sha", JValue.str "h1"), ("start_sha", JValue.str "s1")]
      "position_type" = some (JValue.str "text") := by
  have h := pdn_position_type_always_present "/projects/1" pdnAllLocParams rfl
    ⟨"POST", "/projects/1/merge_requests/1/discussions",
      [("body", JValue.str "n"),
       ("position", JValue.obj
         [("position_type", JValue.str "text"), ("new_path", JValue.str "a.txt"),
          ("old_path", JValue.str "b.txt"), ("base_sha", JValue.str "b1"),
          ("head_sha", JValue.str "h1"), ("start_sha", JValue.str "s1")])],
      [], false⟩
    [("position_type", JValue.str "text"), ("new_path", JValue.str "a.txt"),
     ("old_path", JValue.str "b.txt"), ("base_sha", JValue.str "b1"),
     ("head_sha", JValue.str "h1"), ("start_sha", JValue.str "s1")]
    rfl rfl
  simpa using h

/-- C3: for `postDiscussionNote` with the position gate passed, a present
negative oldLine fails with the non-negative message before any request;
oldLine 0 yields a position with no `old_line` key; a positive oldLine
appears as `old_line`; and a present newLine always appears as
`new_line`, including the value 0. -/
theorem pdn_old_line_rules (base : String) (p : MRParams)
    (hop : p.operation = "postDiscussionNote") (hiid : 0 < p.mergeRequestIid)
    (hg : hasPositionGate p = true) :
    (∀ v, p.oldLine = some v → v < 0 →
      handleMergeRequest base p =
        Except.error "The \"oldLine\" parameter must be a non-negative number.") ∧
    (p.oldLine = some 0 →
      ∀ d pos, handleMergeRequest base p = Except.ok d →
        JObject.get d.body "position" = some (JValue.obj pos) →
        JObject.hasKey pos "old_line" = false) ∧
    (∀ v, 0 < v → p.oldLine = some v →
      ∀ d pos, handleMergeRequest base p = Except.ok d →
        JObject.get d.body "position" = some (JValue.obj pos) →
        JObject.get pos "old_line" = some (JValue.num v)) ∧
    (∀ v, p.newLine = some v →
      ∀ d pos, handleMergeRequest base p = Except.ok d →
        JObject.get d.body "position" = some (JValue.obj pos) →
        JObject.get pos "new_line" = some (JValue.num v)) := by
  rw [handleMergeRequest_dispatch_pdn base p hop]
  refine ⟨?_, ?_, ?_, ?_⟩
  · intro v ho hv
    exact pdn_err_oldLine base hiid hg ho hv
  · intro ho d pos hd hget
    have hpp := pdn_position_of_get hd hget
    subst hpp
    rw [positionObj_hasKey_old_line, ho]
    simp
  · intro v hvpos ho d pos hd hget
    have hpp := pdn_position_of_get hd hget
    subst hpp
    rw [positionObj_get_old_line, ho]
    have hne : ¬ v = 0 := by omega
    simp [hne]
  · intro v hn d pos hd hget
    have hpp := pdn_position_of_get hd hget
    subst hpp
    rw [positionObj_get_new_line, hn]

/-- Witness for C3: oldLine -1 with the five location fields set fails
with the non-negative message. -/
theorem pdn_old_line_rules_witness :
    handleMergeRequest "/projects/1" pdnNegOldLineParams =
      Except.error "The \"oldLine\" parameter must be a non-negative number." :=
  (pdn_old_line_rules "/projects/1" pdnNegOldLineParams rfl (by decide) rfl).1
    (-1) rfl (by decide)

/-- C4: for `postDiscussionNote` (with a positive iid and no failing
oldLine validation), startDiscussion true targets `.../discussions`;
startDiscussion false with an empty discussionId fails with the
discussion-id message and no request; startDiscussion false with a
non-empty discussionId targets `.../discussions/{id}/notes`. -/
theorem pdn_endpoint_selection (base : String) (p : MRParams)
    (hop : p.operation = "postDiscussionNote") (hiid : 0 < p.mergeRequestIid)
    (hva : ¬(hasPositionGate p = true ∧ ∃ v, p.oldLine = some v ∧ v < 0)) :
    (p.startDiscussion = true →
      Except.map (fun d => d.endpoint) (handleMergeRequest base p) =
        Except.ok (base ++ "/merge_requests/" ++ toString p.mergeRequestIid
          ++ "/discussions")) ∧
    (p.startDiscussion = false → p.discussionId = "" →
      handleMergeRequest base p =
        Except.error "Discussion ID must be provided when replying to a discussion.") ∧
    (p.startDiscussion = false → p.discussionId ≠ "" →
      Except.map (fun d => d.endpoint) (handleMergeRequest base p) =
        Except.ok (base ++ "/merge_requests/" ++ toString p.mergeRequestIid
          ++ "/discussions/" ++ p.discussionId ++ "/notes")) := by
  rw [handleMergeRequest_dispatch_pdn base p hop]
  obtain ⟨posOpt, hpos⟩ := buildPositionObj_ok_of_valid hva
  refine ⟨?_, ?_, ?_⟩
  · intro hsd
    obtain ⟨d, hok, _, _, hend⟩ := pdn_ok_of base hiid hpos (Or.inl hsd)
    rw [hok]
    simp [Except.map, hend, hsd]
  · intro hsd hdid
    exact pdn_err_discussionId base hiid hpos hsd hdid
  · intro hsd hdid
    obtain ⟨d, hok, _, _, hend⟩ := pdn_ok_of base hiid hpos (Or.inr hdid)
    rw [hok]
    simp [Except.map, hend, hsd]

/-- Witness for C4: replying with an empty discussionId fails with the
discussion-id message. -/
theorem pdn_endpoint_selection_witness :
    handleMergeRequest "/projects/9" pdnReplyNoIdParams =
      Except.error "Discussion ID must be provided when replying to a discussion." :=
  (pdn_endpoint_selection "/projects/9" pdnReplyNoIdParams rfl (by decide)
    (fun h => absurd h.1 (by decide))).2.1 rfl rfl

/-- Counterexample to C5 as stated: with all five location fields
provided, the resulting `position` object carries the key
`position_type`, which is not among the five location keys nor
new_line/old_line. -/
theorem pdn_position_extra_key_counterexample :
    Except.map (fun d => JObject.get d.body "position")
      (handleMergeRequest "/projects/1" pdnAllLocParams) =
      Except.ok (some (JValue.obj
        [("position_type", JValue.str "text"), ("new_path", JValue.str "a.txt"),
         ("old_path", JValue.str "b.txt"), ("base_sha", JValue.str "b1"),
         ("head_sha", JValue.str "h1"), ("start_sha", JValue.str "s1")])) ∧
    "position_type" ∉
      (["new_path", "old_path", "base_sha", "head_sha", "start_sha",
        "new_line", "old_line"] : List String) := by
  exact ⟨rfl, by decide⟩

/-- C5 as amended: when a `position` object is built for
`postDiscussionNote`, its keys are exactly `position_type`, the five
location keys, plus `new_line` when newLine is present, `old_line` when
oldLine is present and nonzero, and `line_range` when the line-range
gate passes — no other keys. -/
theorem pdn_position_exact_keys (base : String) (p : MRParams)
    (hop : p.operation = "postDiscussionNote") :
    ∀ d pos, handleMergeRequest base p = Except.ok d →
      JObject.get d.body "position" = some (JValue.obj pos) →
      JObject.keys pos =
        ["position_type", "new_path", "old_path", "base_sha", "head_sha", "start_sha"]
          ++ (match p.newLine with | some _ => ["new_line"] | none => [])
          ++ (match p.oldLine with
              | some v => if v == 0 then [] else ["old_line"]
              | none => [])
          ++ (if lineRangeGate p then ["line_range"] else []) := by
  rw [handleMergeRequest_dispatch_pdn base p hop]
  intro d pos hd hget
  rw [pdn_position_of_get hd hget, positionObj_keys]

/-- Witness for the amended C5 at a concrete input: no line numbers and
no line range, so exactly the six keys. -/
theorem pdn_position_exact_keys_witness :
    JObject.keys
      [("position_type", JValue.str "text"), ("new_path", JValue.str "a.txt"),
       ("old_path", JValue.str "b.txt"), ("base_sha", JValue.str "b1"),
       ("head_sha", JValue.str "h1"), ("start_sha", JValue.str "s1")] =
      ["position_type", "new_path", "old_path", "base_sha", "head_sha", "start_sha"] := by
  have h := pdn_position_exact_keys "/projects/1" pdnAllLocParams rfl
    ⟨"POST", "/projects/1/merge_requests/1/discussions",
      [("body", JValue.str "n"),
       ("position", JValue.obj
         [("position_type", JValue.str "text"), ("new_path", JValue.str "a.txt"),
          ("old_path", JValue.str "b.txt"), ("base_sha", JValue.str "b1"),
          ("head_sha", JValue.str "h1"), ("start_sha", JValue.str "s1")])],
      [], false⟩
    [("position_type", JValue.str "text"), ("new_path", JValue.str "a.txt"),
     ("old_path", JValue.str "b.txt"), ("base_sha", JValue.str "b1"),
     ("head_sha", JValue.str "h1"), ("start_sha", JValue.str "s1")]
    rfl rfl
  simpa using h

/-- C6: when a `position` is built for `postDiscussionNote`, it carries
`line_range` iff all four line-range endpoint fields are non-empty;
each side always carries `line_code` and `type` and carries
`old_line`/`new_line` exactly when the corresponding input is present,
with no sign validation on those values. -/
theorem pdn_line_range_rules (base : String) (p : MRParams)
    (hop : p.operation = "postDiscussionNote") :
    ∀ d pos, handleMergeRequest base p = Except.ok d →
      JObject.get d.body "position" = some (JValue.obj pos) →
      (JObject.hasKey pos "line_range" = lineRangeGate p) ∧
      (JObject.get pos "line_range" =
        (if lineRangeGate p then
           some (JValue.obj
             [("start", JValue.obj
                ([("line_code", JValue.str p.lineRangeStartLineCode),
                  ("type", JValue.str p.lineRangeStartType)]
                  ++ (match p.lineRangeStartOldLine with
                      | some v => [("old_line", JValue.num v)]
                      | none => [])
                  ++ (match p.lineRangeStartNewLine with
                      | some v => [("new_line", JValue.num v)]
                      | none => []))),
              ("end", JValue.obj
                ([("line_code", JValue.str p.lineRangeEndLineCode),
                  ("type", JValue.str p.lineRangeEndType)]
                  ++ (match p.lineRangeEndOldLine with
                      | some v => [("old_line", JValue.num v)]
                      | none => [])
                  ++ (match p.lineRangeEndNewLine with
                      | some v => [("new_line", JValue.num v)]
                      | none => [])))])
         else none)) := by
  rw [handleMergeRequest_dispatch_pdn base p hop]
  intro d pos hd hget
  rw [pdn_position_of_get hd hget]
  exact ⟨positionObj_hasKey_line_range p,
    by rw [positionObj_get_line_range]; rfl⟩

/-- Witness for C6: full line range with a negative start old_line (no
sign validation) and an end new_line of 0. -/
theorem pdn_line_range_rules_witness :
    JObject.get
      [("position_type", JValue.str "text"), ("new_path", JValue.str "a.txt"),
       ("old_path", JValue.str "b.txt"), ("base_sha", JValue.str "b1"),
       ("head_sha", JValue.str "h1"), ("start_sha", JValue.str "s1"),
       ("line_range", JValue.obj
         [("start", JValue.obj
            [("line_code", JValue.str "lc1"), ("type", JValue.str "new"),
             ("old_line", JValue.num (-3))]),
          ("end", JValue.obj
            [("line_code", JValue.str "lc2"), ("type", JValue.str "old"),
             ("new_line", JValue.num 0)])])]
      "line_range" =
      some (JValue.obj
        [("start", JValue.obj
           [("line_code", JValue.str "lc1"), ("type", JValue.str "new"),
            ("old_line", JValue.num (-3))]),
         ("end", JValue.obj
           [("line_code", JValue.str "lc2"), ("type", JValue.str "old"),
            ("new_line", JValue.num 0)])]) := by
  have h := pdn_line_range_rules "/projects/1" pdnLineRangeParams rfl
    ⟨"POST", "/projects/1/merge_requests/1/discussions",
      [("body", JValue.str "n"),
       ("position", JValue.obj
         [("position_type", JValue.str "text"), ("new_path", JValue.str "a.txt"),
          ("old_path", JValue.str "b.txt"), ("base_sha", JValue.str "b1"),
          ("head_sha", JValue.str "h1"), ("start_sha", JValue.str "s1"),
          ("line_range", JValue.obj
            [("start", JValue.obj
               [("line_code", JValue.str "lc1"), ("type", JValue.str "new"),
                ("old_line", JValue.num (-3))]),
             ("end", JValue.obj
               [("line_code", JValue.str "lc2"), ("type", JValue.str "old"),
                ("new_line", JValue.num 0)])])])],
      [], false⟩
    [("position_type", JValue.str "text"), ("new_path", JValue.str "a.txt"),
     ("old_path", JValue.str "b.txt"), ("base_sha", JValue.str "b1"),
     ("head_sha", JValue.str "h1"), ("start_sha", JValue.str "s1"),
     ("line_range", JValue.obj
       [("start", JValue.obj
          [("line_code", JValue.str "lc1"), ("type", JValue.str "new"),
           ("old_line", JValue.num (-3))]),
        ("end", JValue.obj
          [("line_code", JValue.str "lc2"), ("type", JValue.str "old"),
           ("new_line", JValue.num 0)])])]
    rfl rfl
  simpa using h.2

/-- C2: for `updateDiscussionNote` (positive ids, tri-state resolved
selector): a non-empty body together with a non-"none" resolved fails
with the mutual-exclusion message and no request; body alone yields
exactly a body key; resolved alone yields exactly a resolved boolean;
neither yields an empty body on a PUT that is still issued. -/
theorem udn_body_resolved_rules (base : String) (p : MRParams)
    (hop : p.operation = "updateDiscussionNote")
    (hiid : 0 < p.mergeRequestIid) (hnote : 0 < p.noteId)
    (htri : p.resolved = "none" ∨ p.resolved = "true" ∨ p.resolved = "false") :
    (p.body ≠ "" → p.resolved ≠ "none" →
      handleMergeRequest base p =
        Except.error "body and resolved are mutually exclusive") ∧
    (p.body ≠ "" → p.resolved = "none" →
      Except.map (fun d => d.body) (handleMergeRequest base p) =
        Except.ok [("body", JValue.str p.body)]) ∧
    (p.body = "" → p.resolved ≠ "none" →
      Except.map (fun d => d.body) (handleMergeRequest base p) =
        Except.ok [("resolved", JValue.bool (p.resolved == "true"))]) ∧
    (p.body = "" → p.resolved = "none" →
      Except.map (fun d => (d.method, d.body)) (handleMergeRequest base p) =
        Except.ok ("PUT", ([] : JObject))) := by
  rw [handleMergeRequest_dispatch_udn base p hop]
  unfold updateDiscussionNoteBranch
  rw [requirePositive_of_pos hiid, requirePositive_of_pos hnote]
  dsimp only
  refine ⟨?_, ?_, ?_, ?_⟩
  · intro hb hr
    rw [if_pos (by simp [hb, hr])]
  · intro hb hr
    rw [if_neg (by simp [hr])]
    simp [Except.map, udnBody, hb]
  · intro hb hr
    rw [if_neg (by simp [hb])]
    rcases htri with h | h | h
    · exact absurd h hr
    · simp [Except.map, udnBody, hb, h]
    · simp [Except.map, udnBody, hb, h]
  · intro hb hr
    rw [if_neg (by simp [hb])]
    simp [Except.map, udnBody, hb, hr]

/-- Witness for C2: both a body and resolved "true" fail with the
mutual-exclusion message. -/
theorem udn_body_resolved_rules_witness :
    handleMergeRequest "/projects/1" udnBothParams =
      Except.error "body and resolved are mutually exclusive" :=
  (udn_body_resolved_rules "/projects/1" udnBothParams rfl (by decide) (by decide)
    (Or.inr (Or.inl rfl))).1 (by decide) (by decide)

/-- C7: `merge` is a PUT whose path ends in `/merge`; the body carries
`merge_commit_message` iff the message is non-empty and carries
`squash: true` iff the strategy is "squash", never `squash: false`. -/
theorem merge_body_rules (base : String) (p : MRParams)
    (hop : p.operation = "merge") (hiid : 0 < p.mergeRequestIid) :
    (Except.map (fun d => (d.method, d.endpoint)) (handleMergeRequest base p) =
      Except.ok ("PUT",
        base ++ "/merge_requests/" ++ toString p.mergeRequestIid ++ "/merge")) ∧
    (Except.map (fun d => JObject.hasKey d.body "merge_commit_message")
        (handleMergeRequest base p) =
      Except.ok (p.mergeCommitMessage != "")) ∧
    (Except.map (fun d => JObject.get d.body "squash") (handleMergeRequest base p) =
      Except.ok (if p.mergeStrategy == "squash" then some (JValue.bool true) else none)) := by
  rw [handleMergeRequest_dispatch_merge base p hop, requirePositive_of_pos hiid]
  dsimp only
  refine ⟨rfl, ?_, ?_⟩
  · by_cases hm : p.mergeCommitMessage = "" <;>
      by_cases hs : p.mergeStrategy = "squash" <;>
        simp [Except.map, hasKey_append, JObject.hasKey, hm, hs]
  · by_cases hm : p.mergeCommitMessage = "" <;>
      by_cases hs : p.mergeStrategy = "squash" <;>
        simp [Except.map, get_append, JObject.get, hm, hs]

/-- Witness for C7: squash strategy with a commit message. -/
theorem merge_body_rules_witness :
    Except.map (fun d => JObject.get d.body "squash")
      (handleMergeRequest "/projects/1" mergeSquashParams) =
      Except.ok (some (JValue.bool true)) := by
  have h := (merge_body_rules "/projects/1" mergeSquashParams rfl (by decide)).2.2
  simpa using h

/-- C8: `labels` is a PUT to the bare merge-request path whose body is
exactly one of `add_labels` (when the action is "add") or
`remove_labels` (otherwise), never both. -/
theorem labels_exactly_one_key (base : String) (p : MRParams)
    (hop : p.operation = "labels") (hiid : 0 < p.mergeRequestIid) :
    (Except.map (fun d => (d.method, d.endpoint, d.body)) (handleMergeRequest base p) =
      Except.ok ("PUT", base ++ "/merge_requests/" ++ toString p.mergeRequestIid,
        if p.labelAction == "add" then [("add_labels", JValue.str p.labels)]
        else [("remove_labels", JValue.str p.labels)])) ∧
    (Except.map
        (fun d => JObject.hasKey d.body "add_labels" && JObject.hasKey d.body "remove_labels")
        (handleMergeRequest base p) =
      Except.ok false) := by
  rw [handleMergeRequest_dispatch_labels base p hop, requirePositive_of_pos hiid]
  dsimp only
  refine ⟨rfl, ?_⟩
  by_cases ha : p.labelAction = "add" <;> simp [Except.map, JObject.hasKey, ha]

/-- Witness for C8: adding labels "bug,urgent". -/
theorem labels_exactly_one_key_witness :
    Except.map (fun d => (d.method, d.endpoint, d.body))
      (handleMergeRequest "/projects/1" labelsAddParams) =
      Except.ok ("PUT", "/projects/1/merge_requests/12",
        [("add_labels", JValue.str "bug,urgent")]) := by
  have h := (labels_exactly_one_key "/projects/1" labelsAddParams rfl (by decide)).1
  simpa using h

/-- Counterexample to C9 as stated: the `tag` resource with the
unrecognized operation "describeTag" raises no error at all — the build
falls through, leaving the initial GET method and empty endpoint, and a
request is still issued. -/
theorem executeItem_fallthrough_counterexample :
    executeItem id "/projects/1" tagBogusOpParams =
      Except.ok (ItemOutcome.request ⟨"GET", "", [], [], false⟩) ∧
    "describeTag" ∉ inlineResourceOps "tag" ∧
    "describeTag" ∉ mrSupportedOps :=
  ⟨rfl, by decide, by decide⟩

/-- C9 as amended: an unrecognized resource raises "Unknown resource"
before any request, and an unrecognized operation on the mergeRequest
resource raises the unsupported-operation error before any request; but
for the inline resources (tag, release, group, project, issue, raw) an
unrecognized operation raises nothing — the branch falls through and a
GET request with an empty endpoint is issued. -/
theorem executeItem_unrecognized_pairs (enc : String → String) (base : String)
    (ep : ExecParams) :
    (ep.resource ∉ knownResources →
      executeItem enc base ep = Except.error ("Unknown resource: " ++ ep.resource)) ∧
    (ep.resource = "mergeRequest" → ep.mr.operation ∉ mrSupportedOps →
      executeItem enc base ep =
        Except.error ("The operation \"" ++ ep.mr.operation ++ "\" is not supported.")) ∧
    (ep.resource ∈ (["tag", "release", "group", "project", "issue", "raw"] : List String) →
      ep.mr.operation ∉ inlineResourceOps ep.resource →
      executeItem enc base ep = Except.ok (ItemOutcome.request ⟨"GET", "", [], [], false⟩)) := by
  refine ⟨?_, ?_, ?_⟩
  · intro h
    simp only [knownResources, List.mem_cons, List.not_mem_nil, or_false, not_or] at h
    obtain ⟨r1, r2, r3, r4, r5, r6, r7, r8, r9, r10⟩ := h
    unfold executeItem
    simp [r1, r2, r3, r4, r5, r6, r7, r8, r9, r10]
  · intro hres hop
    unfold executeItem
    rw [handleMergeRequest_unsupported base ep.mr hop]
    simp [hres, Except.map]
  · intro hres hop
    simp only [List.mem_cons, List.not_mem_nil, or_false] at hres
    rcases hres with h | h | h | h | h | h
    · rw [h] at hop
      simp only [show inlineResourceOps "tag" = ["create", "get", "getAll", "delete"]
        from rfl, List.mem_cons, List.not_mem_nil, or_false, not_or] at hop
      obtain ⟨o1, o2, o3, o4⟩ := hop
      unfold executeItem
      simp [h, o1, o2, o3, o4]
    · rw [h] at hop
      simp only [show inlineResourceOps "release" =
          ["create", "update", "get", "getAll", "delete"] from rfl,
        List.mem_cons, List.not_mem_nil, or_false, not_or] at hop
      obtain ⟨o1, o2, o3, o4, o5⟩ := hop
      unfold executeItem
      simp [h, o1, o2, o3, o4, o5]
    · rw [h] at hop
      simp only [show inlineResourceOps "group" =
          ["create", "get", "delete", "getMembers"] from rfl,
        List.mem_cons, List.not_mem_nil, or_false, not_or] at hop
      obtain ⟨o1, o2, o3, o4⟩ := hop
      unfold executeItem
      simp [h, o1, o2, o3, o4]
    · rw [h] at hop
      simp only [show inlineResourceOps "project" =
          ["create", "get", "getAll", "search"] from rfl,
        List.mem_cons, List.not_mem_nil, or_false, not_or] at hop
      obtain ⟨o1, o2, o3, o4⟩ := hop
      unfold executeItem
      simp [h, o1, o2, o3, o4]
    · rw [h] at hop
      simp only [show inlineResourceOps "issue" =
          ["create", "get", "getAll", "update", "close", "reopen"] from rfl,
        List.mem_cons, List.not_mem_nil, or_false, not_or] at hop
      obtain ⟨o1, o2, o3, o4, o5, o6⟩ := hop
      unfold executeItem
      simp [h, o1, o2, o3, o4, o5, o6]
    · rw [h] at hop
      simp only [show inlineResourceOps "raw" = ["request"] from rfl,
        List.mem_cons, List.not_mem_nil, or_false, not_or] at hop
      unfold executeItem
      simp [h, hop]

/-- Witness for the amended C9: the unknown resource "wiki" raises the
unknown-resource error before any request. -/
theorem executeItem_unrecognized_pairs_witness :
    executeItem id "/projects/1" unknownResourceParams =
      Except.error "Unknown resource: wiki" :=
  (executeItem_unrecognized_pairs id "/projects/1" unknownResourceParams).1 (by decide)

end GitlabExtended
